import Mathlib

/-!
Shallow embedding of the mermaid-isomorphic render-session manager
(src/mermaid-isomorphic.ts) and its in-browser variant (src/browser.ts).

The diagram engine (mermaid.render), the DOM parser and the Playwright
driver are opaque capabilities; they are modelled as function parameters
bundled in a BrowserEnv / CallEnv record.  Everything the library itself
does - id generation, settled-result collection, geometry and ARIA
extraction, screenshot attachment, reference counting, the finally block
and error re-tagging - is translated from the source.
-/

/-- Translation of a JS Error value thrown by the diagram engine: the three
fields the library reads from it (error.name, error.stack, error.message). -/
structure JsError where
  name : String
  message : String
  stack : String
deriving DecidableEq, Repr

/-- Translation of a JS value appearing as a rejection reason after crossing the
page boundary: either a nullish/falsy value, or an object with string-valued
fields and a flag recording whether Error.prototype is attached to it. -/
inductive Reason where
  | nullish : Reason
  | obj (fields : List (String × String)) (protoIsError : Bool) : Reason
deriving DecidableEq, Repr

/-- Translation of one element of a PromiseSettledResult array. -/
inductive Settled (α : Type) where
  | fulfilled (value : α) : Settled α
  | rejected (reason : Reason) : Settled α
deriving DecidableEq, Repr

/-- Model of the parsed top-level svg element: its attributes, its elements by
id with their text content, and the viewBox.baseVal geometry. -/
structure SvgElement where
  attrs : List (String × String)
  elems : List (String × String)
  viewBoxWidth : Int
  viewBoxHeight : Int
deriving DecidableEq, Repr

/-- element.getAttribute: the attribute value, or none when absent. -/
def getAttribute (element : SvgElement) (attr : String) : Option String :=
  (element.attrs.find? (fun p => p.1 == attr)).map (fun p => p.2)

/-- element.getElementById followed by reading textContent. -/
def getElementById (element : SvgElement) (i : String) : Option String :=
  (element.elems.find? (fun p => p.1 == i)).map (fun p => p.2)

/-- Translation of getAriaValue (identical in src/mermaid-isomorphic.ts and
src/browser.ts): read the referencing attribute, return undefined when falsy,
otherwise split it on whitespace and concatenate the text content of every
referenced element that exists. -/
def getAriaValue (element : SvgElement) (attr : String) : Option String :=
  match getAttribute element attr with
  | none => none
  | some value =>
    if value = "" then none
    else some ((value.split Char.isWhitespace).foldl
      (fun result i =>
        match getElementById element i with
        | some t => result ++ t
        | none => result) "")

/-- Model of XMLSerializer.serializeToString on the located svg element: a
deterministic rendering of the element subtree. -/
def serializeToString (element : SvgElement) : String :=
  "<svg" ++ (element.attrs.foldl (fun acc p => acc ++ " " ++ p.1 ++ "=" ++ p.2) "")
    ++ ">" ++ (element.elems.foldl (fun acc p => acc ++ p.2) "") ++ "</svg>"

/-- The possible results of awaiting mermaid.render(id, diagram, container):
it resolves with an svg string, or rejects with an Error instance, or rejects
with a non-Error value. -/
inductive EngineResult where
  | ok (svg : String) : EngineResult
  | errE (e : JsError) : EngineResult
  | errV (v : Reason) : EngineResult
deriving DecidableEq, Repr

/-- Whether the engine resolved. -/
def EngineResult.isOk : EngineResult → Bool
  | .ok _ => true
  | .errE _ => false
  | .errV _ => false

/-- The opaque in-page capabilities: the diagram engine keyed by (id, diagram
text), and DOMParser.parseFromString followed by getElementsByTagName('svg')[0]. -/
structure BrowserEnv where
  render : String → String → EngineResult
  parse : String → SvgElement

/-- The result record built per successfully rendered diagram
(src/mermaid-isomorphic.ts lines 29-64). -/
structure RenderResult where
  description : Option String := none
  height : Int
  id : String
  screenshot : Option String := none
  svg : String
  title : Option String := none
  width : Int
deriving DecidableEq, Repr

/-- Truthiness filter for the optional description/title fields: the source
assigns the field only when the extracted string is truthy (non-empty). -/
def truthyField (o : Option String) : Option String :=
  match o with
  | some s => if s = "" then none else some s
  | none => none

/-- The success path shared verbatim by both variants: parse the engine svg,
locate the svg element, read the view box, resolve the aria references, and
re-serialize the element. -/
def extractResult (env : BrowserEnv) (id : String) (svg : String) : RenderResult :=
  let element := env.parse svg
  let description := getAriaValue element "aria-describedby"
  let title := getAriaValue element "aria-labelledby"
  { description := truthyField description
    height := element.viewBoxHeight
    id := id
    svg := serializeToString element
    title := truthyField title
    width := element.viewBoxWidth }

/-- The plain-data descriptor built by the catch block of renderDiagrams
(line 226): field order name, stack, message; no Error prototype. -/
def errorDescriptor (e : JsError) : Reason :=
  .obj [("name", e.name), ("stack", e.stack), ("message", e.message)] false

/-- A raw Error value used as a rejection reason (browser variant has no
catch block, so the Error keeps its prototype). -/
def errorValue (e : JsError) : Reason :=
  .obj [("name", e.name), ("message", e.message), ("stack", e.stack)] true

/-- The per-diagram async task of renderDiagrams (lines 193-229, Node in-page
variant): compute the id from the call prefix and the positional index, run the
engine, extract the result; on failure re-throw an Error as a plain descriptor. -/
def renderDiagramTask (env : BrowserEnv) (pre : String) (index : Nat)
    (diagram : String) : Except Reason RenderResult :=
  let id := pre ++ "-" ++ toString index
  match env.render id diagram with
  | .ok svg => .ok (extractResult env id svg)
  | .errE e => .error (errorDescriptor e)
  | .errV v => .error v

/-- Promise.allSettled on one task: a fulfilled or rejected settled record. -/
def settleOne (t : Except Reason RenderResult) : Settled RenderResult :=
  match t with
  | .ok v => .fulfilled v
  | .error e => .rejected e

/-- Promise.allSettled on the task list: it always resolves, never rejects. -/
def allSettled (l : List (Except Reason RenderResult)) :
    Except Reason (List (Settled RenderResult)) :=
  .ok (l.map settleOne)

/-- diagrams.map(async (diagram, index) => ...) of renderDiagrams: the tasks in
input order, with the positional index threaded from the start offset. -/
def renderTasksFrom (env : BrowserEnv) (pre : String) :
    Nat → List String → List (Except Reason RenderResult)
  | _, [] => []
  | index, diagram :: rest =>
    renderDiagramTask env pre index diagram :: renderTasksFrom env pre (index + 1) rest

/-- The settled-results array returned by renderDiagrams (Node in-page
variant): allSettled over the indexed tasks starting at index 0. -/
def renderDiagrams (env : BrowserEnv) (pre : String) (diagrams : List String) :
    List (Settled RenderResult) :=
  (renderTasksFrom env pre 0 diagrams).map settleOne

theorem renderTasksFrom_length (env : BrowserEnv) (pre : String) :
    ∀ (diagrams : List String) (i : Nat),
      (renderTasksFrom env pre i diagrams).length = diagrams.length := by
  intro diagrams
  induction diagrams with
  | nil => intro i; rfl
  | cons d rest ih => intro i; simpa [renderTasksFrom] using ih (i + 1)

theorem renderTasksFrom_get (env : BrowserEnv) (pre : String) :
    ∀ (diagrams : List String) (i j : Nat) (h : j < diagrams.length),
      (renderTasksFrom env pre i diagrams)[j]? =
        some (renderDiagramTask env pre (i + j) diagrams[j]) := by
  intro diagrams
  induction diagrams with
  | nil => intro i j h; exact absurd h (by simp)
  | cons d rest ih =>
    intro i j h
    cases j with
    | zero => simp [renderTasksFrom]
    | succ k =>
      have hk : k < rest.length := by simpa using Nat.lt_of_succ_lt_succ h
      have := ih (i + 1) k hk
      simp only [renderTasksFrom, List.getElem?_cons_succ, List.getElem_cons_succ]
      rw [this]
      have harith : i + 1 + k = i + (k + 1) := by omega
      rw [harith]

theorem renderDiagrams_length (env : BrowserEnv) (pre : String)
    (diagrams : List String) :
    (renderDiagrams env pre diagrams).length = diagrams.length := by
  simp [renderDiagrams, renderTasksFrom_length]

theorem renderDiagrams_get (env : BrowserEnv) (pre : String)
    (diagrams : List String) (j : Nat) (h : j < diagrams.length) :
    (renderDiagrams env pre diagrams)[j]? =
      some (settleOne (renderDiagramTask env pre j diagrams[j])) := by
  have hlen : j < (renderTasksFrom env pre 0 diagrams).length := by
    rw [renderTasksFrom_length]; exact h
  simp only [renderDiagrams, List.getElem?_map]
  rw [renderTasksFrom_get env pre diagrams 0 j h]
  simp

/-- The render options the manager reads: the id prefix (None meaning the
default) and the screenshot flag. -/
structure RenderOpts where
  idPrefix : Option String := none
  screenshot : Bool := false
deriving DecidableEq, Repr

/-- Translation of renderOptions?.prefix ?? 'mermaid' (line 328), identical to
the options?.prefix ?? 'mermaid' default of the browser variant (line 53). -/
def defaultPrefix (o : Option String) : String := o.getD "mermaid"

/-- Document mutations the render functions perform on the page body. -/
inductive DomOp where
  | appendContainer : DomOp
  | removeContainer : DomOp
  | appendElement : DomOp
deriving DecidableEq, Repr

/-- Whether the call's container element is attached to the document after
running the recorded operations, given whether it was attached before. -/
def containerAttached : List DomOp → Bool → Bool
  | [], b => b
  | .appendContainer :: ops, _ => containerAttached ops true
  | .removeContainer :: ops, _ => containerAttached ops false
  | .appendElement :: ops, b => containerAttached ops b

/-- The document mutations performed by renderDiagrams (Node in-page variant):
the container is created and appended (line 162); with the screenshot flag each
successfully rendered element is additionally appended to the body (line 205);
the function returns without ever removing the container. -/
def renderDiagramsDomOps (env : BrowserEnv) (pre : String) (screenshot : Bool)
    (diagrams : List String) : List DomOp :=
  DomOp.appendContainer ::
    (if screenshot then
      (renderDiagrams env pre diagrams).foldr
        (fun r acc =>
          match r with
          | .fulfilled _ => DomOp.appendElement :: acc
          | .rejected _ => acc) []
    else [])

/-- The per-diagram async task of the browser variant (src/browser.ts lines
52-79): the id embeds the module-global counter value, the engine runs, and a
thrown Error keeps its prototype because there is no catch block. -/
def browserDiagramTask (env : BrowserEnv) (id : String) (diagram : String) :
    Except Reason RenderResult :=
  match env.render id diagram with
  | .ok svg => .ok (extractResult env id svg)
  | .errE e => .error (errorValue e)
  | .errV v => .error v

/-- diagrams.map of the browser variant: ids use the module-global count,
incremented once per diagram; the map body runs synchronously up to its first
await, so the counter values are taken in input order. -/
def browserTasksFrom (env : BrowserEnv) (pre : String) :
    Nat → List String → List (Except Reason RenderResult)
  | _, [] => []
  | counter, diagram :: rest =>
    browserDiagramTask env (pre ++ "-" ++ toString counter) diagram ::
      browserTasksFrom env pre (counter + 1) rest

/-- One invocation of the browser-variant renderer (src/browser.ts lines
40-84): append the container, settle all per-diagram tasks and, because
Promise.allSettled never rejects, remove the container and return the results.
The components are the call result, the module counter after the call, and the
document mutations performed.  The screenshot option of RenderOpts is read
nowhere in this variant. -/
def browserRendererCall (env : BrowserEnv) (opts : RenderOpts) (counter : Nat)
    (diagrams : List String) :
    Except Reason (List (Settled RenderResult)) × Nat × List DomOp :=
  let pre := defaultPrefix opts.idPrefix
  match allSettled (browserTasksFrom env pre counter diagrams) with
  | .error e => (.error e, counter + diagrams.length, [DomOp.appendContainer])
  | .ok results =>
    (.ok results, counter + diagrams.length,
      [DomOp.appendContainer, DomOp.removeContainer])

/-- The future stored in the browserPromise slot: it resolves to a session
(one browser plus one context, named by a session id) or rejects with the
launch error. -/
inductive SessionFuture where
  | ok (sessionId : Nat) : SessionFuture
  | failed (e : Reason) : SessionFuture
deriving DecidableEq, Repr

/-- The closure state of one manager returned by createMermaidRenderer: the
browserPromise slot and the active-call count (lines 291-292). -/
structure PoolState where
  browserPromise : Option SessionFuture
  count : Nat
deriving DecidableEq, Repr

/-- The state of a freshly created manager. -/
def initialPoolState : PoolState := { browserPromise := none, count := 0 }

/-- The fates of the awaited operations of one render call, plus the session a
launch started by this call would produce.  These model the opaque Playwright
capabilities: getBrowser, context.newPage, page.goto, the combined style and
script injections, page.evaluate, and page.locator(...).screenshot. -/
structure CallEnv where
  launch : SessionFuture
  newPage : Except Reason Nat
  goto : Option Reason
  inject : Option Reason
  evalRes : Except Reason (List (Settled RenderResult))
  shot : String → String

/-- The membership test of the marshalling loop (line 355): 'name' in reason,
and so on, over the object's own fields. -/
def hasField (fields : List (String × String)) (k : String) : Bool :=
  fields.any (fun p => p.1 == k)

/-- Lines 353-357: a truthy reason bearing the fields name, message and stack
gets Error.prototype attached; every other reason is left alone. -/
def marshalReason (r : Reason) : Reason :=
  match r with
  | .nullish => .nullish
  | .obj fields proto =>
    if hasField fields "name" && hasField fields "message" && hasField fields "stack"
    then .obj fields true
    else .obj fields proto

/-- The marshalling loop (lines 348-358) applied to one settled outcome. -/
def marshalOutcome (r : Settled RenderResult) : Settled RenderResult :=
  match r with
  | .fulfilled v => .fulfilled v
  | .rejected reason => .rejected (marshalReason reason)

/-- Lines 331-337: one fulfilled result gets the screenshot of the element
located by its generated id attached; rejected results are skipped. -/
def attachScreenshot (shot : String → String) (r : Settled RenderResult) :
    Settled RenderResult :=
  match r with
  | .fulfilled v => .fulfilled { v with screenshot := some (shot v.id) }
  | .rejected reason => .rejected reason

/-- Lines 330-338: the screenshot pass runs over the results only when the
screenshot option is set. -/
def attachScreenshots (opt : Bool) (shot : String → String)
    (results : List (Settled RenderResult)) : List (Settled RenderResult) :=
  if opt then results.map (attachScreenshot shot) else results

/-- Everything observable about one completed render call of the manager. -/
structure CallResult where
  returned : Except Reason (List (Settled RenderResult))
  stateAfter : PoolState
  launchStarted : Bool
  pageOpened : Bool
  pageClosed : Bool
  finallyRan : Bool
  contextClosed : Bool

/-- The try block (lines 305-338): open a page, navigate, inject resources,
evaluate renderDiagrams in the page, then attach screenshots; the first failure
aborts the rest; the Bool records whether the page variable was assigned. -/
def tryBody (ce : CallEnv) (screenshotOpt : Bool) :
    Bool × Except Reason (List (Settled RenderResult)) :=
  match ce.newPage with
  | .error e => (false, .error e)
  | .ok _ =>
    (true,
      match ce.goto with
      | some e => .error e
      | none =>
        match ce.inject with
        | some e => .error e
        | none =>
          match ce.evalRes with
          | .error e => .error e
          | .ok results => .ok (attachScreenshots screenshotOpt ce.shot results))

/-- One render call of the manager (lines 294-361).  The increment and the
conditional launch are synchronous; awaiting the browser promise happens
before the try block, so a rejected launch propagates without running the
finally block and leaves the incremented count and the rejected future behind.
Otherwise the try block runs; the finally block then closes the page if one was
opened, decrements the count and, at zero, clears the slot and closes the
context; the marshalling loop runs on the success path only. -/
def runRenderCall (ce : CallEnv) (opts : RenderOpts) (st : PoolState) : CallResult :=
  let count1 := st.count + 1
  let launchStarted := st.browserPromise.isNone
  let bp := st.browserPromise.getD ce.launch
  match bp with
  | .failed e =>
    { returned := .error e
      stateAfter := { browserPromise := some (.failed e), count := count1 }
      launchStarted := launchStarted
      pageOpened := false
      pageClosed := false
      finallyRan := false
      contextClosed := false }
  | .ok sid =>
    let opened := tryBody ce opts.screenshot
    let count2 := count1 - 1
    let idle := decide (count2 = 0)
    { returned :=
        match opened.2 with
        | .error e => .error e
        | .ok results => .ok (results.map marshalOutcome)
      stateAfter :=
        { browserPromise := if idle then none else some (.ok sid), count := count2 }
      launchStarted := launchStarted
      pageOpened := opened.1
      pageClosed := opened.1
      finallyRan := true
      contextClosed := idle }

/-- A sequence of render calls run to completion one after another, tracking
the manager state they leave behind. -/
def runCalls : List (CallEnv × RenderOpts) → PoolState → PoolState
  | [], st => st
  | c :: rest, st => runCalls rest (runRenderCall c.1 c.2 st).stateAfter

/-- The call sees a successfully resolved session: either a previous call left
a resolved future in the slot, or the slot was empty and the launch started by
this call resolves. -/
def acquiresSession (st : PoolState) (ce : CallEnv) (sid : Nat) : Prop :=
  st.browserPromise = some (.ok sid) ∨
    (st.browserPromise = none ∧ ce.launch = .ok sid)

/-- Whether a settled outcome is a rejection. -/
def Settled.isRejected {α : Type} : Settled α → Bool
  | .fulfilled _ => false
  | .rejected _ => true

/-- Number of rejected outcomes in a settled array. -/
def countRejected (l : List (Settled RenderResult)) : Nat :=
  l.countP (fun r => r.isRejected)

/-- Number of fulfilled outcomes in a settled array. -/
def countFulfilled (l : List (Settled RenderResult)) : Nat :=
  l.countP (fun r => !r.isRejected)

/-- The post-processing every outcome of a successful call undergoes after the
in-page evaluation: screenshot attachment when the option is set, then the
error-marshalling loop. -/
def postOne (opts : RenderOpts) (shot : String → String)
    (r : Settled RenderResult) : Settled RenderResult :=
  marshalOutcome (if opts.screenshot then attachScreenshot shot r else r)

/-- The instrumented manager state for interleaved calls: the browserPromise
slot holding the number of the launched session, the active-call count as a JS
number, and how many session launches and closes have been performed. -/
structure TraceState where
  slot : Option Nat
  active : Int
  launchedCount : Nat
  closedCount : Nat
deriving DecidableEq, Repr

/-- The two atomic sections of a call with respect to the shared pool state:
its synchronous prologue (count += 1 and the conditional launch, lines
295-298) and its synchronous epilogue inside the finally block (count -= 1 and
the conditional teardown, lines 341-345).  Between them the call only touches
its own page, so interleavings of concurrent calls are interleavings of these
events. -/
inductive PoolEvent where
  | arrive : PoolEvent
  | complete : PoolEvent
deriving DecidableEq, Repr

/-- The effect of one atomic section on the shared state. -/
def poolStep (s : TraceState) : PoolEvent → TraceState
  | .arrive =>
    match s.slot with
    | none =>
      { slot := some s.launchedCount
        active := s.active + 1
        launchedCount := s.launchedCount + 1
        closedCount := s.closedCount }
    | some _ => { s with active := s.active + 1 }
  | .complete =>
    let active := s.active - 1
    if active = 0 then
      { slot := none
        active := active
        launchedCount := s.launchedCount
        closedCount := s.closedCount + 1 }
    else
      { s with active := active }

/-- The state of a freshly created manager. -/
def initialTraceState : TraceState :=
  { slot := none, active := 0, launchedCount := 0, closedCount := 0 }

/-- The states an interleaved execution can reach: a call runs its epilogue
only while its own increment is still counted, so the complete step fires only
at a positive active count. -/
inductive PoolReachable : TraceState → Prop
  | init : PoolReachable initialTraceState
  | arrive {s : TraceState} : PoolReachable s → PoolReachable (poolStep s .arrive)
  | complete {s : TraceState} : PoolReachable s → 0 < s.active →
      PoolReachable (poolStep s .complete)

/-- The reference-counting invariant of the pool. -/
def poolInv (s : TraceState) : Prop :=
  0 ≤ s.active ∧
  (s.active = 0 → s.slot = none) ∧
  (0 < s.active → s.slot.isSome = true) ∧
  (s.slot = none → s.launchedCount = s.closedCount) ∧
  (s.slot.isSome = true → s.launchedCount = s.closedCount + 1)

theorem poolInv_of_reachable {s : TraceState} (h : PoolReachable s) : poolInv s := by
  induction h with
  | init =>
    refine ⟨le_refl 0, fun _ => rfl, fun h0 => absurd h0 (by decide), fun _ => rfl, ?_⟩
    intro hsome
    simp [initialTraceState] at hsome
  | arrive h ih =>
    obtain ⟨h0, h1, h2, h3, h4⟩ := ih
    rename_i s₀
    cases hslot : s₀.slot with
    | none =>
      have hc := h3 hslot
      refine ⟨?_, ?_, ?_, ?_, ?_⟩ <;>
        simp [poolStep, hslot, hc] <;> omega
    | some v =>
      have hc := h4 (by simp [hslot])
      refine ⟨?_, ?_, ?_, ?_, ?_⟩ <;>
        simp [poolStep, hslot, hc] <;> omega
  | complete h hpos ih =>
    obtain ⟨h0, h1, h2, h3, h4⟩ := ih
    rename_i s₀
    have hsome := h2 hpos
    cases hslot : s₀.slot with
    | none => rw [hslot] at hsome; simp at hsome
    | some v =>
      have hc := h4 (by simp [hslot])
      by_cases hone : s₀.active - 1 = 0
      · refine ⟨?_, ?_, ?_, ?_, ?_⟩ <;> (simp [poolStep, hone]; try omega)
      · refine ⟨?_, ?_, ?_, ?_, ?_⟩ <;> (simp [poolStep, hone, hslot, hc]; try omega)

theorem getD_of_acquires {st : PoolState} {ce : CallEnv} {sid : Nat}
    (h : acquiresSession st ce sid) :
    st.browserPromise.getD ce.launch = .ok sid := by
  rcases h with h | ⟨h1, h2⟩
  · simp [h]
  · simp [h1, h2]

theorem runRenderCall_failedSlot (ce : CallEnv) (opts : RenderOpts) (st : PoolState)
    (e : Reason) (h : st.browserPromise = some (.failed e)) :
    runRenderCall ce opts st =
      { returned := .error e
        stateAfter := { browserPromise := some (.failed e), count := st.count + 1 }
        launchStarted := false
        pageOpened := false
        pageClosed := false
        finallyRan := false
        contextClosed := false } := by
  simp [runRenderCall, h]

theorem runCalls_poisoned (e : Reason) :
    ∀ (calls : List (CallEnv × RenderOpts)) (st : PoolState),
      st.browserPromise = some (.failed e) →
      runCalls calls st =
        { browserPromise := some (.failed e), count := st.count + calls.length } := by
  intro calls
  induction calls with
  | nil =>
    intro st h
    cases st with
    | mk bp c => simp_all [runCalls]
  | cons c rest ih =>
    intro st h
    rw [runCalls, runRenderCall_failedSlot c.1 c.2 st e h]
    rw [ih _ rfl]
    simp
    omega

/-- C2: in every reachable pool state at most one environment instance is live
(the number of launches never exceeds the number of closes by more than one,
and never falls below it); a render call arriving in that state starts a
launch exactly when no launch is pending; and a call that arrives while a
launch is in flight leaves the pending future untouched, so it awaits that
same future instead of starting a second launch. -/
theorem atMostOneBrowserInstance {s : TraceState} (h : PoolReachable s) :
    s.closedCount ≤ s.launchedCount ∧
    s.launchedCount ≤ s.closedCount + 1 ∧
    ((poolStep s .arrive).launchedCount = s.launchedCount + 1 ↔ s.slot = none) ∧
    (s.slot.isSome = true → (poolStep s .arrive).slot = s.slot) := by
  obtain ⟨h0, h1, h2, h3, h4⟩ := poolInv_of_reachable h
  cases hslot : s.slot with
  | none =>
    have hc := h3 hslot
    refine ⟨by omega, by omega, ?_, ?_⟩
    · simp [poolStep, hslot]
    · simp [hslot]
  | some v =>
    have hc := h4 (by simp [hslot])
    refine ⟨by omega, by omega, ?_, ?_⟩
    · simp [poolStep, hslot]
    · simp [poolStep, hslot]

theorem atMostOneBrowserInstance_witness :
    (poolStep initialTraceState .arrive).closedCount ≤
      (poolStep initialTraceState .arrive).launchedCount ∧
    (poolStep initialTraceState .arrive).launchedCount ≤
      (poolStep initialTraceState .arrive).closedCount + 1 ∧
    ((poolStep (poolStep initialTraceState .arrive) .arrive).launchedCount =
        (poolStep initialTraceState .arrive).launchedCount + 1 ↔
      (poolStep initialTraceState .arrive).slot = none) ∧
    ((poolStep initialTraceState .arrive).slot.isSome = true →
      (poolStep (poolStep initialTraceState .arrive) .arrive).slot =
        (poolStep initialTraceState .arrive).slot) :=
  atMostOneBrowserInstance (PoolReachable.arrive PoolReachable.init)

/-- C10: when the environment launch fails, the failed call leaves the count
incremented and the rejected future in the slot without running the finally
block; an arbitrary subsequent call on the same manager awaits that same
rejected future and fails with the same launch error, again without cleanup;
and after any further sequence of calls the slot still holds the rejected
future while the count equals one plus the number of those calls, hence never
returns to zero. -/
theorem launchFailurePoisonsManager (e : Reason) (ce ce2 : CallEnv)
    (opts opts2 : RenderOpts) (calls : List (CallEnv × RenderOpts))
    (h : ce.launch = .failed e) :
    (runRenderCall ce opts initialPoolState).returned = .error e ∧
    (runRenderCall ce opts initialPoolState).finallyRan = false ∧
    (runRenderCall ce opts initialPoolState).stateAfter =
      { browserPromise := some (.failed e), count := 1 } ∧
    (runRenderCall ce2 opts2
      (runRenderCall ce opts initialPoolState).stateAfter).returned = .error e ∧
    (runRenderCall ce2 opts2
      (runRenderCall ce opts initialPoolState).stateAfter).finallyRan = false ∧
    (runCalls calls
      (runRenderCall ce opts initialPoolState).stateAfter).browserPromise =
        some (.failed e) ∧
    (runCalls calls
      (runRenderCall ce opts initialPoolState).stateAfter).count = 1 + calls.length ∧
    0 < (runCalls calls
      (runRenderCall ce opts initialPoolState).stateAfter).count := by
  have hfirst : runRenderCall ce opts initialPoolState =
      { returned := .error e
        stateAfter := { browserPromise := some (.failed e), count := 1 }
        launchStarted := true
        pageOpened := false
        pageClosed := false
        finallyRan := false
        contextClosed := false } := by
    simp [runRenderCall, initialPoolState, h]
  rw [hfirst]
  have hrest := runCalls_poisoned e calls
    { browserPromise := some (.failed e), count := 1 } rfl
  have hsecond := runRenderCall_failedSlot ce2 opts2
    { browserPromise := some (.failed e), count := 1 } e rfl
  rw [hrest, hsecond]
  refine ⟨rfl, rfl, rfl, rfl, rfl, rfl, rfl, ?_⟩
  show 0 < 1 + calls.length
  omega

theorem launchFailurePoisonsManager_witness :
    ({ launch := .failed .nullish, newPage := .ok 0, goto := none, inject := none,
       evalRes := .ok [], shot := fun _ => "" } : CallEnv).launch = .failed .nullish ∧
    (runRenderCall
      { launch := .failed .nullish, newPage := .ok 0, goto := none, inject := none,
        evalRes := .ok [], shot := fun _ => "" }
      { idPrefix := none, screenshot := false } initialPoolState).returned =
        .error .nullish ∧
    (runCalls []
      (runRenderCall
        { launch := .failed .nullish, newPage := .ok 0, goto := none, inject := none,
          evalRes := .ok [], shot := fun _ => "" }
        { idPrefix := none, screenshot := false } initialPoolState).stateAfter).count =
      1 + ([] : List (CallEnv × RenderOpts)).length :=
  ⟨rfl,
    (launchFailurePoisonsManager .nullish
      { launch := .failed .nullish, newPage := .ok 0, goto := none, inject := none,
        evalRes := .ok [], shot := fun _ => "" }
      { launch := .failed .nullish, newPage := .ok 0, goto := none, inject := none,
        evalRes := .ok [], shot := fun _ => "" }
      { idPrefix := none, screenshot := false }
      { idPrefix := none, screenshot := false } [] rfl).1,
    (launchFailurePoisonsManager .nullish
      { launch := .failed .nullish, newPage := .ok 0, goto := none, inject := none,
        evalRes := .ok [], shot := fun _ => "" }
      { launch := .failed .nullish, newPage := .ok 0, goto := none, inject := none,
        evalRes := .ok [], shot := fun _ => "" }
      { idPrefix := none, screenshot := false }
      { idPrefix := none, screenshot := false } [] rfl).2.2.2.2.2.2.1⟩

/-- A launch rejection value, as Playwright would produce for a failed
browserType.launch. -/
def launchCrash : Reason :=
  .obj [("name", "Error"), ("message", "browserType.launch: Failed to launch"),
        ("stack", "Error: browserType.launch: Failed to launch")] true

/-- A call whose environment launch fails and whose every other capability
would succeed. -/
def launchCrashCall : CallEnv :=
  { launch := .failed launchCrash
    newPage := .ok 0
    goto := none
    inject := none
    evalRes := .ok []
    shot := fun _ => "" }

/-- The render options with every default. -/
def defaultOpts : RenderOpts := { idPrefix := none, screenshot := false }

/-- C3 counterexample: a render call whose environment launch fails does fail,
yet the active-call count is left at 1 instead of being decremented back to 0,
and the finally block never runs - so cleanup is not guaranteed on this
failure path, contrary to the claim, which lists environment launch among the
covered failure points. -/
theorem failureCleanup_cex :
    (runRenderCall launchCrashCall defaultOpts initialPoolState).returned =
      .error launchCrash ∧
    (runRenderCall launchCrashCall defaultOpts initialPoolState).finallyRan = false ∧
    (runRenderCall launchCrashCall defaultOpts initialPoolState).stateAfter.count = 1 ∧
    (runRenderCall launchCrashCall defaultOpts
      initialPoolState).stateAfter.count ≠ initialPoolState.count := by
  refine ⟨rfl, rfl, rfl, ?_⟩
  decide

/-- C3 (amended): every render call that fails after its session future has
resolved - at page open, navigation, resource injection or in-page
evaluation - still runs the finally block: the page is closed exactly when it
was opened, the active-call count returns to its pre-call value, and when that
value is zero the pending-session slot is cleared and the context closed.
Only a failure of the environment launch itself escapes before the guarded
block. -/
theorem failedCallCleanup (ce : CallEnv) (opts : RenderOpts) (st : PoolState)
    (sid : Nat) (err : Reason)
    (hacq : acquiresSession st ce sid)
    (hfail : (tryBody ce opts.screenshot).2 = .error err) :
    (runRenderCall ce opts st).returned = .error err ∧
    (runRenderCall ce opts st).finallyRan = true ∧
    (runRenderCall ce opts st).pageClosed = (runRenderCall ce opts st).pageOpened ∧
    (runRenderCall ce opts st).stateAfter.count = st.count ∧
    (st.count = 0 →
      (runRenderCall ce opts st).stateAfter.browserPromise = none ∧
      (runRenderCall ce opts st).contextClosed = true) := by
  have hgd := getD_of_acquires hacq
  refine ⟨?_, ?_, ?_, ?_, ?_⟩
  · simp [runRenderCall, hgd, hfail]
  · simp [runRenderCall, hgd]
  · simp [runRenderCall, hgd]
  · simp [runRenderCall, hgd]
  · intro h0
    constructor
    · simp [runRenderCall, hgd, h0]
    · simp [runRenderCall, hgd, h0]

/-- A navigation rejection value, as Playwright would produce for a failed
page.goto. -/
def gotoCrash : Reason :=
  .obj [("name", "Error"), ("message", "page.goto: net::ERR_ABORTED"),
        ("stack", "Error: page.goto: net::ERR_ABORTED")] true

/-- A call that acquires a session and opens its page, then fails to navigate. -/
def gotoCrashCall : CallEnv :=
  { launch := .ok 7
    newPage := .ok 1
    goto := some gotoCrash
    inject := none
    evalRes := .ok []
    shot := fun _ => "" }

theorem failedCallCleanup_witness :
    acquiresSession initialPoolState gotoCrashCall 7 ∧
    (tryBody gotoCrashCall defaultOpts.screenshot).2 = .error gotoCrash ∧
    ((runRenderCall gotoCrashCall defaultOpts initialPoolState).returned =
        .error gotoCrash ∧
      (runRenderCall gotoCrashCall defaultOpts initialPoolState).finallyRan = true ∧
      (runRenderCall gotoCrashCall defaultOpts initialPoolState).pageClosed =
        (runRenderCall gotoCrashCall defaultOpts initialPoolState).pageOpened ∧
      (runRenderCall gotoCrashCall defaultOpts initialPoolState).stateAfter.count =
        initialPoolState.count ∧
      (initialPoolState.count = 0 →
        (runRenderCall gotoCrashCall defaultOpts
          initialPoolState).stateAfter.browserPromise = none ∧
        (runRenderCall gotoCrashCall defaultOpts initialPoolState).contextClosed =
          true)) :=
  ⟨Or.inr ⟨rfl, rfl⟩, rfl,
    failedCallCleanup gotoCrashCall defaultOpts initialPoolState 7 gotoCrash
      (Or.inr ⟨rfl, rfl⟩) rfl⟩

/-- A second, distinct launch rejection value. -/
def launchTimeout : Reason :=
  .obj [("name", "TimeoutError"),
        ("message", "browserType.launch: Timeout 180000ms exceeded."),
        ("stack", "TimeoutError: browserType.launch: Timeout 180000ms exceeded.")] true

/-- A call whose environment launch times out. -/
def launchTimeoutCall : CallEnv :=
  { launch := .failed launchTimeout
    newPage := .ok 3
    goto := none
    inject := none
    evalRes := .ok []
    shot := fun _ => "" }

/-- C4 counterexample: for a render call whose launch future rejects no
finalization block runs at all - the page-close and count-decrement claimed
for every render call do not happen: after the call the count is 2 instead of
the pre-call 1, and the slot still holds the stale rejected future. -/
theorem finalization_cex :
    (runRenderCall launchTimeoutCall defaultOpts
      { browserPromise := some (.failed launchTimeout), count := 1 }).finallyRan =
        false ∧
    (runRenderCall launchTimeoutCall defaultOpts
      { browserPromise := some (.failed launchTimeout), count := 1 }).pageClosed =
        false ∧
    (runRenderCall launchTimeoutCall defaultOpts
      { browserPromise := some (.failed launchTimeout), count := 1 }).stateAfter.count
        = 2 ∧
    (runRenderCall launchTimeoutCall defaultOpts
      { browserPromise := some (.failed launchTimeout),
        count := 1 }).stateAfter.browserPromise = some (.failed launchTimeout) :=
  ⟨rfl, rfl, rfl, rfl⟩

/-- C4 (amended): every render call whose session future resolves runs the
finalization block: the page is closed exactly when one was opened and the
active-call count is decremented back to its pre-call value; when that value
is zero the context is closed and the pending-session slot is cleared, and a
subsequent call on the now idle manager starts a fresh launch instead of
reusing a stale handle.  A call whose launch future rejects skips the block. -/
theorem finalizationAndRecycling (ce ce2 : CallEnv) (opts opts2 : RenderOpts)
    (st : PoolState) (sid : Nat)
    (hacq : acquiresSession st ce sid) :
    (runRenderCall ce opts st).finallyRan = true ∧
    (runRenderCall ce opts st).pageClosed = (runRenderCall ce opts st).pageOpened ∧
    (runRenderCall ce opts st).stateAfter.count = st.count ∧
    (st.count = 0 →
      (runRenderCall ce opts st).stateAfter.browserPromise = none ∧
      (runRenderCall ce opts st).contextClosed = true ∧
      (runRenderCall ce2 opts2 (runRenderCall ce opts st).stateAfter).launchStarted =
        true) := by
  have hgd := getD_of_acquires hacq
  refine ⟨?_, ?_, ?_, ?_⟩
  · simp [runRenderCall, hgd]
  · simp [runRenderCall, hgd]
  · simp [runRenderCall, hgd]
  · intro h0
    have hafter : (runRenderCall ce opts st).stateAfter =
        { browserPromise := none, count := 0 } := by
      simp [runRenderCall, hgd, h0]
    refine ⟨?_, ?_, ?_⟩
    · simp [hafter]
    · simp [runRenderCall, hgd, h0]
    · rw [hafter]
      cases hl : ce2.launch with
      | ok sid2 => simp [runRenderCall, hl]
      | failed e2 => simp [runRenderCall, hl]

theorem finalizationAndRecycling_witness :
    acquiresSession initialPoolState gotoCrashCall 7 ∧
    ((runRenderCall gotoCrashCall defaultOpts initialPoolState).finallyRan = true ∧
      (runRenderCall gotoCrashCall defaultOpts initialPoolState).pageClosed =
        (runRenderCall gotoCrashCall defaultOpts initialPoolState).pageOpened ∧
      (runRenderCall gotoCrashCall defaultOpts initialPoolState).stateAfter.count =
        initialPoolState.count ∧
      (initialPoolState.count = 0 →
        (runRenderCall gotoCrashCall defaultOpts
          initialPoolState).stateAfter.browserPromise = none ∧
        (runRenderCall gotoCrashCall defaultOpts initialPoolState).contextClosed =
          true ∧
        (runRenderCall launchTimeoutCall defaultOpts
          (runRenderCall gotoCrashCall defaultOpts
            initialPoolState).stateAfter).launchStarted = true)) :=
  ⟨Or.inr ⟨rfl, rfl⟩,
    finalizationAndRecycling gotoCrashCall launchTimeoutCall defaultOpts defaultOpts
      initialPoolState 7 (Or.inr ⟨rfl, rfl⟩)⟩

theorem runRenderCall_success (ce : CallEnv) (opts : RenderOpts) (st : PoolState)
    (sid pid : Nat) (results : List (Settled RenderResult))
    (hacq : acquiresSession st ce sid)
    (hnp : ce.newPage = .ok pid)
    (hg : ce.goto = none)
    (hi : ce.inject = none)
    (he : ce.evalRes = .ok results) :
    (runRenderCall ce opts st).returned =
      .ok ((attachScreenshots opts.screenshot ce.shot results).map marshalOutcome) := by
  have hgd := getD_of_acquires hacq
  simp [runRenderCall, tryBody, hgd, hnp, hg, hi, he]

theorem attachScreenshots_map_marshal (opts : RenderOpts) (shot : String → String)
    (l : List (Settled RenderResult)) :
    (attachScreenshots opts.screenshot shot l).map marshalOutcome =
      l.map (postOne opts shot) := by
  cases hs : opts.screenshot with
  | true => simp [attachScreenshots, postOne, hs, List.map_map, Function.comp]
  | false => simp [attachScreenshots, postOne, hs]

/-- C1: for every render call on any diagram list whose session, page,
navigation, injections and in-page evaluation succeed, the returned array has
exactly one outcome per input diagram, and the outcome at every index j is the
settled result of rendering the diagram at index j (its per-diagram task at
that positional index, settled, then screenshot-attached and marshalled). -/
theorem renderCallAlignment (env : BrowserEnv) (pre : String) (ds : List String)
    (ce : CallEnv) (opts : RenderOpts) (st : PoolState) (sid pid : Nat)
    (j : Nat) (hj : j < ds.length)
    (hacq : acquiresSession st ce sid)
    (hnp : ce.newPage = .ok pid)
    (hg : ce.goto = none)
    (hi : ce.inject = none)
    (he : ce.evalRes = .ok (renderDiagrams env pre ds)) :
    ∃ out, (runRenderCall ce opts st).returned = .ok out ∧
      out.length = ds.length ∧
      out[j]? = some (postOne opts ce.shot
        (settleOne (renderDiagramTask env pre j ds[j]))) := by
  refine ⟨(renderDiagrams env pre ds).map (postOne opts ce.shot), ?_, ?_, ?_⟩
  · rw [runRenderCall_success ce opts st sid pid (renderDiagrams env pre ds)
      hacq hnp hg hi he]
    rw [attachScreenshots_map_marshal]
  · rw [List.length_map, renderDiagrams_length]
  · rw [List.getElem?_map, renderDiagrams_get env pre ds j hj]
    rfl

/-- The engine error mermaid raises on unparseable diagram text. -/
def unknownDiagramError : JsError :=
  { name := "UnknownDiagramError"
    message := "No diagram type detected matching given configuration"
    stack := "UnknownDiagramError: No diagram type detected" }

/-- A concrete engine: it renders every diagram except the text "invalid". -/
def demoEnv : BrowserEnv :=
  { render := fun _ d =>
      if d = "invalid" then .errE unknownDiagramError
      else .ok "<svg viewBox=\x220 0 100 50\x22></svg>"
    parse := fun _ =>
      { attrs := [], elems := [], viewBoxWidth := 100, viewBoxHeight := 50 } }

/-- The concrete scenario batch of the specification. -/
def demoDiagrams : List String := ["graph TD;\nA-->B", "invalid", "graph TD;\nC-->D"]

/-- A call whose every Playwright capability succeeds and whose in-page
evaluation returns the renderDiagrams output for the demo batch. -/
def demoCall : CallEnv :=
  { launch := .ok 0
    newPage := .ok 0
    goto := none
    inject := none
    evalRes := .ok (renderDiagrams demoEnv "mermaid" demoDiagrams)
    shot := fun _ => "png-bytes" }

theorem renderCallAlignment_witness :
    demoCall.evalRes = .ok (renderDiagrams demoEnv "mermaid" demoDiagrams) ∧
    (∃ out, (runRenderCall demoCall defaultOpts initialPoolState).returned = .ok out ∧
      out.length = demoDiagrams.length ∧
      out[1]? = some (postOne defaultOpts demoCall.shot
        (settleOne (renderDiagramTask demoEnv "mermaid" 1
          (demoDiagrams.get ⟨1, by decide⟩))))) :=
  ⟨rfl, renderCallAlignment demoEnv "mermaid" demoDiagrams demoCall defaultOpts
    initialPoolState 0 0 1 (by decide) (Or.inr ⟨rfl, rfl⟩) rfl rfl rfl rfl⟩

theorem marshalReason_errorDescriptor (e : JsError) :
    marshalReason (errorDescriptor e) =
      .obj [("name", e.name), ("stack", e.stack), ("message", e.message)] true := by
  rfl

/-- C5: the marshalling loop re-tags every rejected reason that is an object
bearing the fields name, message and stack by attaching Error.prototype to it
while preserving all its fields; consequently, when the in-page engine threw
an Error for diagram j, the outcome at index j of a successful call is
rejected with a genuine error value (prototype attached) carrying exactly the
engine error's name, stack and message strings - non-empty whenever the
engine error's fields were. -/
theorem errorIdentityRestored (fields : List (String × String)) (proto : Bool)
    (h1 : hasField fields "name" = true)
    (h2 : hasField fields "message" = true)
    (h3 : hasField fields "stack" = true)
    (env : BrowserEnv) (pre : String) (ds : List String)
    (ce : CallEnv) (opts : RenderOpts) (st : PoolState) (sid pid : Nat)
    (j : Nat) (e : JsError) (hj : j < ds.length)
    (herr : env.render (pre ++ "-" ++ toString j) ds[j] = .errE e)
    (hacq : acquiresSession st ce sid)
    (hnp : ce.newPage = .ok pid)
    (hg : ce.goto = none)
    (hi : ce.inject = none)
    (he : ce.evalRes = .ok (renderDiagrams env pre ds)) :
    marshalReason (.obj fields proto) = .obj fields true ∧
    ∃ out, (runRenderCall ce opts st).returned = .ok out ∧
      out[j]? = some (.rejected (.obj
        [("name", e.name), ("stack", e.stack), ("message", e.message)] true)) := by
  refine ⟨?_, ?_⟩
  · simp [marshalReason, h1, h2, h3]
  · refine ⟨(renderDiagrams env pre ds).map (postOne opts ce.shot), ?_, ?_⟩
    · rw [runRenderCall_success ce opts st sid pid _ hacq hnp hg hi he,
        attachScreenshots_map_marshal]
    · rw [List.getElem?_map, renderDiagrams_get env pre ds j hj]
      have htask : renderDiagramTask env pre j ds[j] = .error (errorDescriptor e) := by
        simp [renderDiagramTask, herr]
      rw [htask]
      cases hs : opts.screenshot with
      | true =>
        simp [postOne, settleOne, marshalOutcome, attachScreenshot, hs,
          marshalReason_errorDescriptor]
      | false =>
        simp [postOne, settleOne, marshalOutcome, attachScreenshot, hs,
          marshalReason_errorDescriptor]

theorem errorIdentityRestored_witness :
    hasField [("name", "UnknownDiagramError"), ("stack", "trace"),
      ("message", "bad")] "name" = true ∧
    demoEnv.render ("mermaid" ++ "-" ++ toString 1)
      (demoDiagrams.get ⟨1, by decide⟩) = .errE unknownDiagramError ∧
    (marshalReason (.obj [("name", "UnknownDiagramError"), ("stack", "trace"),
        ("message", "bad")] false) =
      .obj [("name", "UnknownDiagramError"), ("stack", "trace"),
        ("message", "bad")] true ∧
    ∃ out, (runRenderCall demoCall defaultOpts initialPoolState).returned = .ok out ∧
      out[1]? = some (.rejected (.obj
        [("name", unknownDiagramError.name), ("stack", unknownDiagramError.stack),
         ("message", unknownDiagramError.message)] true))) :=
  ⟨rfl, rfl,
    errorIdentityRestored
      [("name", "UnknownDiagramError"), ("stack", "trace"), ("message", "bad")]
      false rfl rfl rfl demoEnv "mermaid" demoDiagrams demoCall defaultOpts
      initialPoolState 0 0 1 unknownDiagramError (by decide) rfl
      (Or.inr ⟨rfl, rfl⟩) rfl rfl rfl rfl⟩

theorem isRejected_settleTask (env : BrowserEnv) (pre : String) (i : Nat)
    (d : String) :
    (settleOne (renderDiagramTask env pre i d)).isRejected =
      !(env.render (pre ++ "-" ++ toString i) d).isOk := by
  cases h : env.render (pre ++ "-" ++ toString i) d <;>
    simp [renderDiagramTask, settleOne, Settled.isRejected, EngineResult.isOk, h]

theorem isRejected_postOne (opts : RenderOpts) (shot : String → String)
    (r : Settled RenderResult) : (postOne opts shot r).isRejected = r.isRejected := by
  cases r <;> cases hs : opts.screenshot <;>
    simp [postOne, marshalOutcome, attachScreenshot, Settled.isRejected, hs]

theorem countRejected_map_postOne (opts : RenderOpts) (shot : String → String)
    (l : List (Settled RenderResult)) :
    countRejected (l.map (postOne opts shot)) = countRejected l := by
  unfold countRejected
  rw [List.countP_map]
  refine List.countP_congr ?_
  intro a _
  simp [Function.comp, isRejected_postOne]

theorem countFulfilled_map_postOne (opts : RenderOpts) (shot : String → String)
    (l : List (Settled RenderResult)) :
    countFulfilled (l.map (postOne opts shot)) = countFulfilled l := by
  unfold countFulfilled
  rw [List.countP_map]
  refine List.countP_congr ?_
  intro a _
  simp [Function.comp, isRejected_postOne]

theorem renderTasks_counts_all_ok (env : BrowserEnv) (pre : String) :
    ∀ (ds : List String) (i : Nat),
      (∀ (j : Nat) (h : j < ds.length),
        (env.render (pre ++ "-" ++ toString (i + j)) ds[j]).isOk = true) →
      countRejected ((renderTasksFrom env pre i ds).map settleOne) = 0 ∧
      countFulfilled ((renderTasksFrom env pre i ds).map settleOne) = ds.length := by
  intro ds
  induction ds with
  | nil => intro i _; exact ⟨rfl, rfl⟩
  | cons d rest ih =>
    intro i h
    have h0 := h 0 (by simp)
    simp only [List.getElem_cons_zero, Nat.add_zero] at h0
    have hhead : (settleOne (renderDiagramTask env pre i d)).isRejected = false := by
      rw [isRejected_settleTask, h0]
      rfl
    have htail := ih (i + 1) ?_
    · constructor
      · rw [renderTasksFrom, List.map_cons]
        unfold countRejected
        rw [List.countP_cons]
        have ht1 : List.countP (fun r => r.isRejected)
            ((renderTasksFrom env pre (i + 1) rest).map settleOne) = 0 := htail.1
        rw [ht1, hhead]
        rfl
      · rw [renderTasksFrom, List.map_cons]
        unfold countFulfilled
        rw [List.countP_cons]
        have ht2 : List.countP (fun r => !r.isRejected)
            ((renderTasksFrom env pre (i + 1) rest).map settleOne) = rest.length :=
          htail.2
        rw [ht2, hhead]
        rfl
    · intro j hj
      have hs := h (j + 1) (by simpa using Nat.succ_lt_succ hj)
      have harith : i + (j + 1) = i + 1 + j := by omega
      rw [harith] at hs
      simpa using hs

theorem renderTasks_counts_one_bad (env : BrowserEnv) (pre : String) :
    ∀ (ds : List String) (i k : Nat), k < ds.length →
      (∀ (j : Nat) (h : j < ds.length),
        (env.render (pre ++ "-" ++ toString (i + j)) ds[j]).isOk = decide ¬(j = k)) →
      countRejected ((renderTasksFrom env pre i ds).map settleOne) = 1 ∧
      countFulfilled ((renderTasksFrom env pre i ds).map settleOne) =
        ds.length - 1 := by
  intro ds
  induction ds with
  | nil => intro i k hk; exact absurd hk (by simp)
  | cons d rest ih =>
    intro i k hk hchar
    cases k with
    | zero =>
      have h0 := hchar 0 (by simp)
      simp only [List.getElem_cons_zero, Nat.add_zero, decide_not] at h0
      have hhead : (settleOne (renderDiagramTask env pre i d)).isRejected = true := by
        rw [isRejected_settleTask, h0]
        rfl
      have htail := renderTasks_counts_all_ok env pre rest (i + 1) ?_
      · constructor
        · rw [renderTasksFrom, List.map_cons]
          unfold countRejected
          rw [List.countP_cons]
          have ht1 : List.countP (fun r => r.isRejected)
              ((renderTasksFrom env pre (i + 1) rest).map settleOne) = 0 := htail.1
          rw [ht1, hhead]
          rfl
        · rw [renderTasksFrom, List.map_cons]
          unfold countFulfilled
          rw [List.countP_cons]
          have ht2 : List.countP (fun r => !r.isRejected)
              ((renderTasksFrom env pre (i + 1) rest).map settleOne) = rest.length :=
            htail.2
          rw [ht2, hhead]
          simp
      · intro j hj
        have hs := hchar (j + 1) (by simpa using Nat.succ_lt_succ hj)
        have harith : i + (j + 1) = i + 1 + j := by omega
        rw [harith] at hs
        simpa using hs
    | succ k2 =>
      have h0 := hchar 0 (by simp)
      simp only [List.getElem_cons_zero, Nat.add_zero] at h0
      have hhead : (settleOne (renderDiagramTask env pre i d)).isRejected = false := by
        rw [isRejected_settleTask, h0]
        simp
      have htail := ih (i + 1) k2 (by simpa using Nat.lt_of_succ_lt_succ hk) ?_
      · constructor
        · rw [renderTasksFrom, List.map_cons]
          unfold countRejected
          rw [List.countP_cons]
          have ht1 : List.countP (fun r => r.isRejected)
              ((renderTasksFrom env pre (i + 1) rest).map settleOne) = 1 := htail.1
          rw [ht1, hhead]
          rfl
        · rw [renderTasksFrom, List.map_cons]
          unfold countFulfilled
          rw [List.countP_cons]
          have ht2 : List.countP (fun r => !r.isRejected)
              ((renderTasksFrom env pre (i + 1) rest).map settleOne) =
                rest.length - 1 := htail.2
          rw [ht2, hhead]
          have hrest : 0 < rest.length := by
            have := Nat.lt_of_succ_lt_succ hk
            omega
          simp
          omega
      · intro j hj
        have hs := hchar (j + 1) (by simpa using Nat.succ_lt_succ hj)
        have harith : i + (j + 1) = i + 1 + j := by omega
        rw [harith] at hs
        simp only [List.getElem_cons_succ] at hs
        rw [hs]
        simp

/-- C6: a batch containing exactly one invalid diagram (the engine fails on it
and succeeds on every other diagram of the batch) makes the render call
succeed as a whole with exactly one rejected outcome, located at the invalid
diagram's index, and fulfilled outcomes for the remaining diagrams. -/
theorem batchIndependence (env : BrowserEnv) (pre : String) (ds : List String)
    (ce : CallEnv) (opts : RenderOpts) (st : PoolState) (sid pid k : Nat)
    (hk : k < ds.length)
    (hchar : ∀ (j : Nat) (h : j < ds.length),
      (env.render (pre ++ "-" ++ toString j) ds[j]).isOk = decide ¬(j = k))
    (hacq : acquiresSession st ce sid)
    (hnp : ce.newPage = .ok pid)
    (hg : ce.goto = none)
    (hi : ce.inject = none)
    (he : ce.evalRes = .ok (renderDiagrams env pre ds)) :
    ∃ out, (runRenderCall ce opts st).returned = .ok out ∧
      out.length = ds.length ∧
      countRejected out = 1 ∧
      countFulfilled out = ds.length - 1 ∧
      out[k]?.map Settled.isRejected = some true := by
  have hchar0 : ∀ (j : Nat) (h : j < ds.length),
      (env.render (pre ++ "-" ++ toString (0 + j)) ds[j]).isOk = decide ¬(j = k) := by
    intro j hj
    rw [Nat.zero_add]
    exact hchar j hj
  have hcounts := renderTasks_counts_one_bad env pre ds 0 k hk hchar0
  refine ⟨(renderDiagrams env pre ds).map (postOne opts ce.shot), ?_, ?_, ?_, ?_, ?_⟩
  · rw [runRenderCall_success ce opts st sid pid _ hacq hnp hg hi he,
      attachScreenshots_map_marshal]
  · rw [List.length_map, renderDiagrams_length]
  · rw [countRejected_map_postOne]
    exact hcounts.1
  · rw [countFulfilled_map_postOne]
    exact hcounts.2
  · rw [List.getElem?_map, renderDiagrams_get env pre ds k hk]
    simp only [Option.map_some']
    rw [isRejected_postOne, isRejected_settleTask]
    have hbad2 : (env.render (pre ++ "-" ++ toString k) ds[k]).isOk = false := by
      rw [hchar k hk]
      exact decide_eq_false (not_not_intro rfl)
    rw [hbad2]
    rfl

theorem batchIndependence_witness :
    (∀ (j : Nat) (h : j < demoDiagrams.length),
      (demoEnv.render ("mermaid" ++ "-" ++ toString j) demoDiagrams[j]).isOk =
        decide ¬(j = 1)) ∧
    (∃ out, (runRenderCall demoCall defaultOpts initialPoolState).returned =
        .ok out ∧
      out.length = demoDiagrams.length ∧
      countRejected out = 1 ∧
      countFulfilled out = demoDiagrams.length - 1 ∧
      out[1]?.map Settled.isRejected = some true) :=
  ⟨by decide,
    batchIndependence demoEnv "mermaid" demoDiagrams demoCall defaultOpts
      initialPoolState 0 0 1 (by decide) (by decide) (Or.inr ⟨rfl, rfl⟩)
      rfl rfl rfl rfl⟩

/-- The generated DOM id observable on a fulfilled outcome. -/
def settledId (r : Settled RenderResult) : Option String :=
  match r with
  | .fulfilled v => some v.id
  | .rejected _ => none

theorem browserTasksFrom_get (env : BrowserEnv) (pre : String) :
    ∀ (ds : List String) (c j : Nat) (h : j < ds.length),
      (browserTasksFrom env pre c ds)[j]? =
        some (browserDiagramTask env (pre ++ "-" ++ toString (c + j)) ds[j]) := by
  intro ds
  induction ds with
  | nil => intro c j h; exact absurd h (by simp)
  | cons d rest ih =>
    intro c j h
    cases j with
    | zero => simp [browserTasksFrom]
    | succ k =>
      have hk : k < rest.length := by simpa using Nat.lt_of_succ_lt_succ h
      simp only [browserTasksFrom, List.getElem?_cons_succ, List.getElem_cons_succ]
      rw [ih (c + 1) k hk]
      have harith : c + 1 + k = c + (k + 1) := by omega
      rw [harith]

/-- A concrete engine that renders every diagram. -/
def okEnv : BrowserEnv :=
  { render := fun _ _ => .ok "<svg></svg>"
    parse := fun _ =>
      { attrs := [], elems := [], viewBoxWidth := 10, viewBoxHeight := 10 } }

/-- C7 counterexample: in the browser variant the id counter is a
module-global that survives across calls, so the single diagram of a second
render call (positional index 0) is given id "mermaid-1", not the positional
"mermaid-0" the claim requires of both variants. -/
theorem positionalIds_cex :
    (browserRendererCall okEnv defaultOpts
      (browserRendererCall okEnv defaultOpts 0 ["graph TD;\nA-->B"]).2.1
      ["graph TD;\nC-->D"]).1 =
      .ok [.fulfilled ⟨none, 10, "mermaid-1", none, "<svg></svg>", none, 10⟩] ∧
    ("mermaid-1" : String) ≠ "mermaid-0" := by
  constructor
  · rfl
  · decide

/-- C7 (amended): in the host-process in-page function the diagram at
positional index j is rendered under id prefix-j; in the browser variant the
diagram at positional index j of a call that starts with module counter c is
rendered under id prefix-(c + j), which coincides with the positional index
only when c = 0 (the first diagrams ever rendered by the module). -/
theorem idsByVariant (env : BrowserEnv) (pre : String) (ds : List String)
    (j : Nat) (svgj : String) (hj : j < ds.length)
    (hok : env.render (pre ++ "-" ++ toString j) ds[j] = .ok svgj)
    (envB : BrowserEnv) (preB : String) (dsB : List String)
    (c jB : Nat) (svgB : String) (hjB : jB < dsB.length)
    (hokB : envB.render (preB ++ "-" ++ toString (c + jB)) dsB[jB] = .ok svgB) :
    (renderDiagrams env pre ds)[j]?.map settledId =
      some (some (pre ++ "-" ++ toString j)) ∧
    ((browserTasksFrom envB preB c dsB).map settleOne)[jB]?.map settledId =
      some (some (preB ++ "-" ++ toString (c + jB))) := by
  constructor
  · rw [renderDiagrams_get env pre ds j hj]
    simp only [Option.map_some']
    simp [renderDiagramTask, hok, settleOne, settledId, extractResult]
  · rw [List.getElem?_map, browserTasksFrom_get envB preB dsB c jB hjB]
    simp only [Option.map_some']
    simp [browserDiagramTask, hokB, settleOne, settledId, extractResult]

theorem idsByVariant_witness :
    demoEnv.render ("mermaid" ++ "-" ++ toString 0)
      (demoDiagrams.get ⟨0, by decide⟩) = .ok "<svg viewBox=\x220 0 100 50\x22></svg>" ∧
    okEnv.render ("m" ++ "-" ++ toString (5 + 0))
      (["x"].get ⟨0, by decide⟩) = .ok "<svg></svg>" ∧
    ((renderDiagrams demoEnv "mermaid" demoDiagrams)[0]?.map settledId =
      some (some ("mermaid" ++ "-" ++ toString 0)) ∧
    ((browserTasksFrom okEnv "m" 5 ["x"]).map settleOne)[0]?.map settledId =
      some (some ("m" ++ "-" ++ toString (5 + 0)))) :=
  ⟨rfl, rfl,
    idsByVariant demoEnv "mermaid" demoDiagrams 0
      "<svg viewBox=\x220 0 100 50\x22></svg>" (by decide) rfl
      okEnv "m" ["x"] 5 0 "<svg></svg>" (by decide) rfl⟩

/-- The screenshot bytes observable on a settled outcome (rejected outcomes
carry no result record, hence no screenshot). -/
def settledScreenshot (r : Settled RenderResult) : Option String :=
  match r with
  | .fulfilled v => v.screenshot
  | .rejected _ => none

theorem settledScreenshot_settleTask (env : BrowserEnv) (pre : String) (i : Nat)
    (d : String) :
    settledScreenshot (settleOne (renderDiagramTask env pre i d)) = none := by
  cases h : env.render (pre ++ "-" ++ toString i) d <;>
    simp [renderDiagramTask, settleOne, settledScreenshot, extractResult, h]

theorem settledScreenshot_browserTask (env : BrowserEnv) (id d : String) :
    settledScreenshot (settleOne (browserDiagramTask env id d)) = none := by
  cases h : env.render id d <;>
    simp [browserDiagramTask, settleOne, settledScreenshot, extractResult, h]

theorem screenshot_postOne (opts : RenderOpts) (shot : String → String)
    (r : Settled RenderResult) (h : settledScreenshot r = none) :
    (settledScreenshot (postOne opts shot r)).isSome =
      (opts.screenshot && !r.isRejected) := by
  cases r with
  | fulfilled v =>
    simp only [settledScreenshot] at h
    cases hs : opts.screenshot <;>
      simp [postOne, marshalOutcome, attachScreenshot, settledScreenshot,
        Settled.isRejected, hs, h]
  | rejected reason =>
    cases hs : opts.screenshot <;>
      simp [postOne, marshalOutcome, attachScreenshot, settledScreenshot,
        Settled.isRejected, hs]

/-- C8 counterexample: a browser-variant render call made with the screenshot
option set to true returns a fulfilled outcome whose screenshot field is
absent - the option is ignored there, so "screenshot present iff the option
is true" fails for that call. -/
theorem screenshotOptIn_cex :
    ({ idPrefix := none, screenshot := true } : RenderOpts).screenshot = true ∧
    (browserRendererCall okEnv { idPrefix := none, screenshot := true } 0
      ["graph TD;\nA-->B"]).1 =
      .ok [.fulfilled ⟨none, 10, "mermaid-0", none, "<svg></svg>", none, 10⟩] ∧
    (⟨none, 10, "mermaid-0", none, "<svg></svg>", none, 10⟩ : RenderResult).screenshot
      = none :=
  ⟨rfl, rfl, rfl⟩

/-- C8 (amended): in the host-process variant, a successful render call
returns at every index an outcome whose screenshot field is present exactly
when the screenshot option was set and that outcome is fulfilled - never on a
rejected outcome and never with the option unset; the browser variant ignores
the screenshot option entirely, and none of its outcomes ever carries a
screenshot. -/
theorem screenshotOptIn (env : BrowserEnv) (pre : String) (ds : List String)
    (ce : CallEnv) (opts : RenderOpts) (st : PoolState) (sid pid : Nat)
    (j : Nat) (hj : j < ds.length)
    (hacq : acquiresSession st ce sid)
    (hnp : ce.newPage = .ok pid)
    (hg : ce.goto = none)
    (hi : ce.inject = none)
    (he : ce.evalRes = .ok (renderDiagrams env pre ds))
    (envB : BrowserEnv) (optsB : RenderOpts) (c : Nat) (dsB : List String)
    (jB : Nat) (hjB : jB < dsB.length) :
    (∃ out, (runRenderCall ce opts st).returned = .ok out ∧
      out[j]?.map (fun r => (settledScreenshot r).isSome) =
        out[j]?.map (fun r => opts.screenshot && !r.isRejected)) ∧
    (∃ outB, (browserRendererCall envB optsB c dsB).1 = .ok outB ∧
      outB[jB]?.map settledScreenshot = some none) := by
  constructor
  · refine ⟨(renderDiagrams env pre ds).map (postOne opts ce.shot), ?_, ?_⟩
    · rw [runRenderCall_success ce opts st sid pid _ hacq hnp hg hi he,
        attachScreenshots_map_marshal]
    · rw [List.getElem?_map, renderDiagrams_get env pre ds j hj]
      simp only [Option.map_some']
      congr 1
      rw [screenshot_postOne opts ce.shot _ (settledScreenshot_settleTask env pre j _),
        isRejected_postOne]
  · refine ⟨(browserTasksFrom envB (defaultPrefix optsB.idPrefix) c dsB).map settleOne,
      rfl, ?_⟩
    rw [List.getElem?_map,
      browserTasksFrom_get envB (defaultPrefix optsB.idPrefix) dsB c jB hjB]
    simp only [Option.map_some']
    rw [settledScreenshot_browserTask]

theorem screenshotOptIn_witness :
    demoCall.evalRes = .ok (renderDiagrams demoEnv "mermaid" demoDiagrams) ∧
    ((∃ out, (runRenderCall demoCall
        { idPrefix := none, screenshot := true } initialPoolState).returned =
          .ok out ∧
      out[0]?.map (fun r => (settledScreenshot r).isSome) =
        out[0]?.map (fun r =>
          ({ idPrefix := none, screenshot := true } : RenderOpts).screenshot &&
            !r.isRejected)) ∧
    (∃ outB, (browserRendererCall okEnv
        { idPrefix := none, screenshot := true } 0 ["x"]).1 = .ok outB ∧
      outB[0]?.map settledScreenshot = some none)) :=
  ⟨rfl,
    screenshotOptIn demoEnv "mermaid" demoDiagrams demoCall
      { idPrefix := none, screenshot := true } initialPoolState 0 0 0 (by decide)
      (Or.inr ⟨rfl, rfl⟩) rfl rfl rfl rfl okEnv
      { idPrefix := none, screenshot := true } 0 ["x"] 0 (by decide)⟩

theorem containerAttached_elementOps (results : List (Settled RenderResult))
    (b : Bool) :
    containerAttached (results.foldr (fun r acc =>
      match r with
      | .fulfilled _ => DomOp.appendElement :: acc
      | .rejected _ => acc) []) b = b := by
  induction results with
  | nil => rfl
  | cons r rest ih =>
    cases r with
    | fulfilled v => simpa [containerAttached] using ih
    | rejected reason => simpa using ih

/-- C9 counterexample: a host-process in-page call - here one whose single
diagram fails - leaves the offscreen container attached to the document after
all its diagrams completed: the in-page function of the Node variant never
removes the container, contradicting removal in both variants. -/
theorem containerRemoval_cex :
    containerAttached (renderDiagramsDomOps demoEnv "mermaid" false ["invalid"])
      false = true := by
  rfl

/-- C9 (amended): the browser-variant renderer removes its container after all
diagrams of the call settle; because Promise.allSettled never rejects, the
removal happens also when some or all diagrams fail.  The host-process
in-page function, by contrast, appends its container and never removes it
(the enclosing page is closed by the manager instead), so after that
function completes its container is still attached. -/
theorem containerLifetime (env : BrowserEnv) (opts : RenderOpts) (c : Nat)
    (ds : List String) (envH : BrowserEnv) (preH : String) (soH : Bool)
    (dsH : List String) :
    containerAttached (browserRendererCall env opts c ds).2.2 false = false ∧
    containerAttached (renderDiagramsDomOps envH preH soH dsH) false = true := by
  constructor
  · simp [browserRendererCall, allSettled, containerAttached]
  · cases soH with
    | true =>
      simp [renderDiagramsDomOps, containerAttached, containerAttached_elementOps]
    | false => simp [renderDiagramsDomOps, containerAttached]
